import Mathlib

/-!
A shallow embedding of the RupeeQ AI calling agent's dialogue engine
(`src/ai_agent/conversation.py`), together with theorems settling the
specification's claims about it.

Modelling conventions:
* Python's mutable `ConversationManager` object becomes an explicit state
  record threaded through every operation.
* `datetime.now()` is modelled by a monotone `clock : Nat` stored in the
  state; every history append stamps the current clock and bumps it.
* Message templates (Python format strings) are pre-split into chunks:
  literal text and named placeholders.  The raw (unformatted) text of a
  template rebuilds the brace syntax.
* `str.lower()` is modelled for ASCII text (`String.toLower`), which covers
  the engine's keyword tables and every input considered here.
-/

namespace RupeeQ

/-- Substring test on character lists: does `hay` contain `needle` as a
contiguous sublist?  Mirrors Python's `needle in hay` on strings. -/
def listContainsSub (hay needle : List Char) : Bool :=
  match hay with
  | [] => needle.isEmpty
  | _ :: t => needle.isPrefixOf hay || listContainsSub t needle

/-- `strContains hay needle` mirrors Python's `needle in hay`. -/
def strContains (hay needle : String) : Bool :=
  listContainsSub hay.data needle.data

/-- `str.lower()` (modelled for ASCII text). -/
def pyLower (s : String) : String :=
  ⟨s.data.map Char.toLower⟩

/-- `str.strip()`: drop leading and trailing whitespace. -/
def pyStrip (s : String) : String :=
  ⟨((s.data.dropWhile Char.isWhitespace).reverse.dropWhile Char.isWhitespace).reverse⟩

/-- `user_input.lower().strip()`, the normalization of `process_user_input`. -/
def normalize_input (s : String) : String :=
  pyStrip (pyLower s)

/-- The 14 call conversation states (`class CallState(Enum)`). -/
inductive CallState where
  | greeting
  | identity_confirmation
  | script_introduction
  | recording_notice
  | employment_status
  | salary_collection
  | benefits_explanation
  | personal_details
  | eligibility_check
  | bureau_consent
  | document_requirements
  | objection_handling
  | call_closing
  | ended
deriving DecidableEq, BEq, Repr

/-- The string value of each enum member, as in the Python source. -/
def CallState.value : CallState → String
  | .greeting => "greeting"
  | .identity_confirmation => "identity_confirmation"
  | .script_introduction => "script_introduction"
  | .recording_notice => "recording_notice"
  | .employment_status => "employment_status"
  | .salary_collection => "salary_collection"
  | .benefits_explanation => "benefits_explanation"
  | .personal_details => "personal_details"
  | .eligibility_check => "eligibility_check"
  | .bureau_consent => "bureau_consent"
  | .document_requirements => "document_requirements"
  | .objection_handling => "objection_handling"
  | .call_closing => "call_closing"
  | .ended => "ended"

/-- All declared states, in declaration order. -/
def allStates : List CallState :=
  [.greeting, .identity_confirmation, .script_introduction, .recording_notice,
   .employment_status, .salary_collection, .benefits_explanation, .personal_details,
   .eligibility_check, .bureau_consent, .document_requirements, .objection_handling,
   .call_closing, .ended]

/-- One entry of `conversation_history`: the dict
`{'state': ..., 'message': ..., 'timestamp': ...}`. -/
structure HistoryEntry where
  state : String
  message : String
  timestamp : Nat
deriving DecidableEq, Repr

/-- The dict returned by `process_user_input`. -/
structure Resp where
  message : Option String
  state : String
deriving DecidableEq, Repr

/-- A piece of a message template: literal text, or a named `{placeholder}`. -/
inductive Chunk where
  | lit (s : String)
  | ph (name : String)
deriving DecidableEq, Repr

/-- A template is its chunks in order. -/
abbrev Template := List Chunk

/-- The per-call mutable state of `ConversationManager`, plus the ambient
clock used to model `datetime.now()`. The `customer_data` dict is modelled
by its three fields the engine ever touches. -/
structure ConversationManager where
  current_state : CallState
  customer_name : String
  agent_name : String
  language : String
  salary : Option Nat
  company : Option String
  designation : Option String
  conversation_history : List HistoryEntry
  clock : Nat
deriving DecidableEq, Repr

/-- `_load_objection_responses` as an ordered association list. -/
def objection_responses : List (String × String) :=
  [("no_need", "An Overdraft Facility is a great financial backup. There is no EMI, and you only pay interest on the amount used."),
   ("existing_loan", "You can balance transfer your loan for better interest rates."),
   ("interest_rate", "1.25% monthly, calculated on a reducing balance method."),
   ("need_time", "Sure, but this offer is currently available for your profile. Can we call you back in the evening?"),
   ("cash_withdrawal", "Yes, you can transfer the Overdraft amount directly to your account."),
   ("no_emi", "There is no EMI in an Overdraft, only interest on the utilized amount."),
   ("recording_question", "This call is recorded for training and quality purposes to enhance our service."),
   ("credit_card", "Credit card cash withdrawals have extra charges, whereas Overdrafts don\x27t."),
   ("reducing_balance", "Interest is applied on the remaining balance after each repayment."),
   ("processing_fee", "Banks charge a one-time processing fee starting from 1%."),
   ("inappropriate_language", "Sir/Madam, I am here to assist you professionally. Please maintain a respectful conversation."),
   ("unclear_voice", "Sir/Madam, I am unable to hear you properly. Could you please check your network or speak a bit louder?")]

/-- Dict lookup in `objection_responses`. -/
def lookupResponse (cat : String) : Option String :=
  (objection_responses.find? (fun p => p.1 = cat)).map (·.2)

/-- The `objection_keywords` table of `_detect_objection`, in source order. -/
def objection_keywords : List (String × List String) :=
  [("no_need", ["don\x27t need", "not interested", "no need", "not required", "not necessary"]),
   ("existing_loan", ["already have", "existing loan", "ongoing loan", "current loan"]),
   ("interest_rate", ["rate of interest", "interest rate", "what is the rate"]),
   ("need_time", ["think", "time", "discuss", "family", "later"]),
   ("cash_withdrawal", ["withdraw cash", "cash withdrawal", "cash"]),
   ("no_emi", ["emi", "monthly payment", "installment"]),
   ("recording_question", ["recording", "recorded", "why recording"]),
   ("credit_card", ["credit card", "already have card"]),
   ("reducing_balance", ["reducing balance", "how interest calculated"]),
   ("processing_fee", ["processing fee", "charges", "fees"]),
   ("inappropriate_language", ["fuck", "shit", "damn", "bloody"]),
   ("unclear_voice", ["can\x27t hear", "unclear", "speak louder", "network issue"])]

/-- `_detect_objection`: first category (in declaration order) one of whose
keywords occurs in the (already lowercased, stripped) input. -/
def detect_objection (user_input : String) : Option String :=
  (objection_keywords.find? (fun p => p.2.any (fun kw => strContains user_input kw))).map (·.1)

/-- `_load_script_messages`: the script catalog.  States absent from the
Python dict (IDENTITY_CONFIRMATION, OBJECTION_HANDLING, ENDED) map to
`none`. -/
def script_messages : CallState → Option (List Template)
  | .greeting => some
      [[.lit "Greetings!! ", .ph "customer_name", .lit " Main ", .ph "agent_name",
        .lit " Baat kar raha hun on Behalf of Bajaj Finance Limited."],
       [.lit "Kaise hain Aap Sir/Mam?"]]
  | .script_introduction => some
      [[.ph "customer_name",
        .lit " Ji ye call meine aap ko kiya hain ek Unique Financial Back up Plan ke liye jo ki Personal Loan Nahi hain Balki ek Flexi Overdraft Facility hain jo ki specially design Ki Gayi hain Salaried employees ke liye."]]
  | .recording_notice => some
      [[.lit "Sir/Mam..Aage badhne se pehle btana chahunga ki ye call training ya quality purpose k liye record ho rahi hai"]]
  | .employment_status => some
      [[.lit "Sir Kya main Jaan Sakta Hun Aap Abhi Job Karte Hain Ya Apka apna Business Hain."]]
  | .salary_collection => some
      [[.lit "Thank You for the information Sir, Mein Batana Chahunga is Flexi Overdraft ke Antargat Aap Apni Net Salary Ka 10 Se 24 guna tak Financial Backup Le Sakte Hain jisme aap Ko Monthly EMI nahi deni hain Sirf Byaj ( Interest ) Dena hain wo bhi us amount par jo ki aap use karte hain Aur Ye Facility apke pass agle 8 saalo tak rahegi."],
       [.ph "customer_name",
        .lit " Ji agar aap Mind na kare to kya mein Jaan Sakta hun Aap ki Net Take home salary kitni Hogi After all deductions."]]
  | .benefits_explanation => some
      [[.lit "Dhanyawad Sir Jaisa apne bataya ki aap ki Monthly Net Salary ", .ph "salary",
        .lit " Rupaye hain to aap 10 -22 lacs tak ka financial backup le sakte hain bina kissi security ke aur iss par Interest Rate Matr 1.25% monthly reducing method me hain example ke liye agar aap 100000 Rupees withdraw karte aap ki assign limit mein se aur 30 days ke liye use karte hain to aap ko 30 din ke liye Sirf 1250 rupees interest dena hoga who bhi jitna amount aap use kar rahe hain uspar na ki poore loan amount par."],
       [.lit "Aur Sir Ye 100000 Rupe aap Bajaj ko 30 din ke andar kabhi bhi lauta sakte hain. Kehne ka matlab yeh hain sir ki ap ko interest per day ke hisab se lagega aur utne din ke liye dena hoga jitney din ke liye aap funds ka istemal karenge"],
       [.ph "customer_name", .lit " Ji Ye Sukar App ko Kaisa Laga ?"]]
  | .personal_details => some
      [[.lit "Sir Itna hi nahi Ye amount aap Jarurat padne par kitni bhi baar Withdraw kar sakte hain aur Kissi Bhi Purpose Ya emergency ke liye use kar sakte hain jaise ghar mein koi renovation Karwana ho / Ya koi Shadi Ho / Yaa ap ko kahi Investment Karna chahte Ho / Ya Bacho Ki Higher Studies ke liye bhi ye paise use kar sakte hain aur jab aap ke pass extra funds available ho to kabhi bhi repay back karke part payment facility ka laabh utha sakte hain aur apna monthly interest save kar sakte hain with no extra charges."],
       [.ph "customer_name",
        .lit " Ji Age ki jankari dene se pehle Kya mein Jaan Sakta Hun App Private Sector Mein Job Karte Hain Ya Government Sector Mein"],
       [.ph "customer_name", .lit " Ji Kya aap apni Company ka Poora Naam Bata Sakte Hain."],
       [.lit "Sir/mam Iss Flexi Overdraft Facility Ki Eligibility Check Karne ke liye Kya Mein Jaan Sakta Hun Aapka Poora Naam As per Pan Card"],
       [.lit "Sir Aap Ka Date of Birth Kya Hoga"],
       [.lit "Sir aap Apna Poora Pan Card Number Bata Denge please"],
       [.lit "Sir Aap abhi/ Presently Kiss City Mein Reh rahe hain, Iska Area Pincode Kya Hoga"],
       [.lit "Aur Sir Apne Apni Company Ka Poora Name Mujhe Bataya Tha Yaha Apka Designation Kya Hoga"],
       [.lit "Aur Jaisa Apne mujhe Bataya Tha apki Net Salary ", .ph "salary", .lit " Monthly Hain."]]
  | .eligibility_check => some
      [[.ph "customer_name",
        .lit " Ji Saari Jankari Dene Ke liye Dhanyawad Mein Sir abhi Bajaj Ke portal mein aap ki exact eligibility check karne ja raha hun jiske antargat mein aap ka credit Score aur aap ki monthly obligation check kaunga jiske liye aap ko ek link bhej raha hun Jo aap ko Bajaj ki Taraf se ayega aap uspar apna go ahead de dijiyega. Sir Link Bhej Kar mein aap ko again 10-15 min mein call back karta hun I hope Sir Ye number aap ka whats app par bhi available hoga."]]
  | .bureau_consent => some
      [[.lit "Batana chahunga bank one time bureau report check karta hai jo ki minorly impact karta hai but timely apne repayments karne se ye recover ho jata hai."]]
  | .document_requirements => some
      [[.lit "Required document list shared with the customer – (As per Bank )"],
       [.lit "1. 3 Months bank statement"],
       [.lit "2. Last 3 months salary slips"],
       [.lit "3. Aadhar/Pan card"],
       [.lit "4. 1 photograph"],
       [.lit "5. Address Proof"]]
  | .call_closing => some
      [[.lit "Sir/Ma\x27am batana chahunga main aapki details aage bank me forward kar raha hu eligibility check ka liye and uske baad mai apko 15-20 minute me wapas call karunga agge ki processiosng k liye."],
       [.lit "Thank You ! Sir/Ma\x27am"],
       [.lit "Is OD se related Kya mai aur kisi prakaar se aapki sahayta kar sakta/sakti hoon?"],
       [.lit "Apna kimti samay dene ke liye dhanyavaad aapka din shubh ho"]]
  | _ => none

/-- `_setup_state_transitions`: the transition table.  States absent from
the Python dict (IDENTITY_CONFIRMATION, ENDED) map to `none`. -/
def state_transitions : CallState → Option (List CallState)
  | .greeting => some [.script_introduction]
  | .script_introduction => some [.recording_notice]
  | .recording_notice => some [.employment_status]
  | .employment_status => some [.salary_collection]
  | .salary_collection => some [.benefits_explanation]
  | .benefits_explanation => some [.personal_details, .objection_handling]
  | .personal_details => some [.eligibility_check, .objection_handling]
  | .eligibility_check => some [.bureau_consent, .objection_handling]
  | .bureau_consent => some [.document_requirements, .objection_handling]
  | .document_requirements => some [.call_closing, .objection_handling]
  | .objection_handling => some [.benefits_explanation, .personal_details, .eligibility_check,
      .bureau_consent, .document_requirements, .call_closing]
  | .call_closing => some [.ended]
  | _ => none

/-- `ConversationManager.__init__`: field initialisation only; the Python
constructor performs no validation of the static tables. -/
def initManager : ConversationManager :=
  { current_state := .greeting
    customer_name := ""
    agent_name := ""
    language := "en-IN"
    salary := none
    company := none
    designation := none
    conversation_history := []
    clock := 0 }

/-- Append a history entry stamped with the current clock (one
`datetime.now().isoformat()` call). -/
def appendHist (m : ConversationManager) (st msg : String) : ConversationManager :=
  { m with conversation_history := m.conversation_history ++ [⟨st, msg, m.clock⟩],
           clock := m.clock + 1 }

/-- The keyword arguments Python passes to `str.format` in
`get_next_message`: the five known placeholders with their defaults. -/
def formatArgs (m : ConversationManager) (name : String) : Option String :=
  if name = "customer_name" then some m.customer_name
  else if name = "agent_name" then some m.agent_name
  else if name = "salary" then
    some (match m.salary with
          | some n => toString n
          | none => "100000")
  else if name = "company" then some (m.company.getD "")
  else if name = "designation" then some (m.designation.getD "")
  else none

/-- Resolve one template chunk against the session. -/
def renderChunk (m : ConversationManager) : Chunk → Option String
  | .lit s => some s
  | .ph name => formatArgs m name

/-- The raw, unformatted text of a template (braces restored). -/
def rawTemplate : Template → String
  | [] => ""
  | .lit s :: t => s ++ rawTemplate t
  | .ph n :: t => "\x7b" ++ n ++ "\x7d" ++ rawTemplate t

/-- Resolve all chunks, or fail as soon as one placeholder is unknown
(the all-or-nothing behavior of Python's `str.format`). -/
def renderParts (m : ConversationManager) : Template → Option (List String)
  | [] => some []
  | c :: t =>
    match renderChunk m c, renderParts m t with
    | some s, some rest => some (s :: rest)
    | _, _ => none

/-- `message.format(...)` wrapped in `try/except KeyError`: substitute every
placeholder, or return the template as-is when one is unknown. -/
def format_message (tpl : Template) (m : ConversationManager) : String :=
  match renderParts m tpl with
  | some parts => String.join parts
  | none => rawTemplate tpl

/-- `get_next_message`: render the first catalog template of the current
state (appending it to history), or `none` when the state has no catalog
entry. -/
def get_next_message (m : ConversationManager) : Option String × ConversationManager :=
  match script_messages m.current_state with
  | none => (none, m)
  | some msgs =>
    match msgs with
    | [] => (none, m)
    | msg :: _ =>
      let formatted := format_message msg m
      (some formatted, appendHist m m.current_state.value formatted)

/-- `_transition_to_next_state`: move to the first candidate next state, if
the current state is in the table and its list is non-empty. -/
def transition_to_next_state (m : ConversationManager) : ConversationManager :=
  match state_transitions m.current_state with
  | none => m
  | some [] => m
  | some (s :: _) => { m with current_state := s }

/-- `_handle_objection`: jump to OBJECTION_HANDLING and return the canned
response when the category is known. -/
def handle_objection (m : ConversationManager) (cat : String) :
    String × ConversationManager :=
  match lookupResponse cat with
  | some r => (r, { m with current_state := .objection_handling })
  | none => ("I understand your concern. Let me explain how this can benefit you.", m)

/-- The transition-then-render step shared by several handler branches:
`self._transition_to_next_state(); return {'message': self.get_next_message(),
'state': self.current_state.value}`. -/
def advanceResp (m : ConversationManager) : Resp × ConversationManager :=
  match get_next_message (transition_to_next_state m) with
  | (msg, m2) => (⟨msg, m2.current_state.value⟩, m2)

/-- `_get_default_response`. -/
def get_default_response (m : ConversationManager) : Resp × ConversationManager :=
  match get_next_message m with
  | (some msg, m2) => (⟨some msg, m2.current_state.value⟩, m2)
  | (none, m2) =>
    (⟨some "Thank you for your response. Let me continue with the process.", "continuation"⟩,
     m2)

/-- The employment keyword set of `_process_employment_status`. -/
def employment_keywords : List String := ["job", "employed", "salary", "employee"]

/-- `_process_employment_status` (receives the lowercased, stripped input). -/
def process_employment_status (m : ConversationManager) (user_input : String) :
    Resp × ConversationManager :=
  if employment_keywords.any (fun w => strContains user_input w) then
    advanceResp m
  else
    (⟨some "I understand. For this overdraft facility, we primarily work with salaried employees. Do you have any other questions?",
      "clarification"⟩, m)

/-- Drop every comma: `user_input.replace(',', '')`. -/
def stripCommas (s : String) : String :=
  ⟨s.data.filter (fun c => c ≠ ',')⟩

/-- The first maximal run of digits in the characters, if any:
`re.search(r'(\d+)', ...)`. -/
def firstDigitRun : List Char → Option (List Char)
  | [] => none
  | c :: t => if c.isDigit then some (c :: t.takeWhile Char.isDigit) else firstDigitRun t

/-- Decimal value of a digit run (`int(...)` on the matched group). -/
def digitsToNat (ds : List Char) : Nat :=
  ds.foldl (fun a c => a * 10 + (c.toNat - 48)) 0

/-- The salary extraction of `_process_salary_collection`. -/
def extract_salary (user_input : String) : Option Nat :=
  (firstDigitRun (stripCommas user_input).data).map digitsToNat

/-- The clarification text returned when no salary is found. -/
def salaryClarificationText : String :=
  "Could you please tell me your net take-home salary amount? For example, if it\x27s 50,000 rupees, please say \x27fifty thousand\x27."

/-- `_process_salary_collection` (receives the raw input). -/
def process_salary_collection (m : ConversationManager) (user_input : String) :
    Resp × ConversationManager :=
  match extract_salary user_input with
  | some n =>
    advanceResp { m with salary := some n }
  | none =>
    (⟨some salaryClarificationText, "salary_clarification"⟩, m)

/-- `_process_personal_details`. -/
def process_personal_details (m : ConversationManager) (_user_input : String) :
    Resp × ConversationManager :=
  if m.current_state = .personal_details then
    advanceResp m
  else
    get_default_response m

/-- The positive-sentiment keyword set of `_process_benefits_response`. -/
def benefits_keywords : List String := ["good", "great", "nice", "interested", "yes"]

/-- `_process_benefits_response` (receives the lowercased, stripped input). -/
def process_benefits_response (m : ConversationManager) (user_input : String) :
    Resp × ConversationManager :=
  if benefits_keywords.any (fun w => strContains user_input w) then
    advanceResp m
  else
    (⟨some "Let me explain more about how this can help you. You can use this facility for any emergency or investment purpose without any EMI burden.",
      "benefits_clarification"⟩, m)

/-- The default branch of `process_user_input` for states without a
dedicated handler: transition, render, or fall back. -/
def default_state_turn (m : ConversationManager) : Resp × ConversationManager :=
  match get_next_message (transition_to_next_state m) with
  | (some msg, m2) => (⟨some msg, m2.current_state.value⟩, m2)
  | (none, m2) => get_default_response m2

/-- `process_user_input`: one full turn of the engine. -/
def process_user_input (m : ConversationManager) (user_input : String) :
    Resp × ConversationManager :=
  let lower := normalize_input user_input
  let m1 := appendHist m "user_input" user_input
  match detect_objection lower with
  | some cat =>
    let r := handle_objection m1 cat
    (⟨some r.1, "objection_handling"⟩, r.2)
  | none =>
    match m1.current_state with
    | .greeting => advanceResp m1
    | .script_introduction => advanceResp m1
    | .recording_notice => advanceResp m1
    | .employment_status => process_employment_status m1 lower
    | .salary_collection => process_salary_collection m1 user_input
    | .personal_details => process_personal_details m1 user_input
    | .benefits_explanation => process_benefits_response m1 lower
    | _ => default_state_turn m1

/-- `start_call`: reset the per-call state. -/
def start_call (m : ConversationManager) (customer_name agent_name language : String) :
    ConversationManager :=
  { m with customer_name := customer_name
           agent_name := agent_name
           language := language
           current_state := .greeting
           salary := none
           company := none
           designation := none
           conversation_history := [] }

/-- `end_call`. -/
def end_call (m : ConversationManager) (outcome : String) : ConversationManager :=
  appendHist { m with current_state := .ended } "call_ended"
    ("Call ended with outcome: " ++ outcome)

/-- Fold `process_user_input` over a list of utterances. -/
def runUtterances (m : ConversationManager) (inputs : List String) : ConversationManager :=
  inputs.foldl (fun acc i => (process_user_input acc i).2) m

/-! ### Reachability over the transition table, and the spec's start-up
validation (the Python constructor performs none; this is the spec side of
the comparison for the initialization claim). -/

/-- Successor states according to the transition table. -/
def nextStates (s : CallState) : List CallState :=
  (state_transitions s).getD []

/-- States reachable from `s` in at most `n` steps of the transition table. -/
def reachIter (s : CallState) : Nat → List CallState
  | 0 => [s]
  | n + 1 =>
    let prev := reachIter s n
    allStates.filter (fun t => prev.contains t || prev.any (fun u => (nextStates u).contains t))

/-- Modelled from the spec: whether a state is reachable from GREETING
(the source contains no such validation code). -/
def specReachable (t : CallState) : Bool :=
  (reachIter .greeting 14).contains t

/-- Modelled from the spec: the three start-up validations the spec says
initialization must perform (the source contains no such validation code).
(1) every state is reachable from GREETING; (2) every state referenced in
the transition table is declared; (3) every script-catalog key is a
declared state. -/
def specConfigValid : Bool :=
  allStates.all specReachable &&
  allStates.all (fun s => ((state_transitions s).getD []).all (fun t => allStates.contains t)) &&
  (allStates.filter (fun s => (script_messages s).isSome)).all (fun s => allStates.contains s)

/-! ### History-monotonicity infrastructure -/

/-- Ordering of history entries by timestamp. -/
def entryLE (a b : HistoryEntry) : Prop :=
  a.timestamp ≤ b.timestamp

instance : DecidableRel entryLE := fun a b => by
  unfold entryLE
  infer_instance

/-- `m2` extends `m`: the clock only advances, and the history grows by a
timestamp-ordered tail stamped within `[m.clock, m2.clock)`. -/
def HistMono (m m2 : ConversationManager) : Prop :=
  m.clock ≤ m2.clock ∧
  ∃ tail, m2.conversation_history = m.conversation_history ++ tail ∧
    (∀ e ∈ tail, m.clock ≤ e.timestamp ∧ e.timestamp < m2.clock) ∧
    List.Pairwise entryLE tail

/-- A well-formed history: timestamp-sorted, all stamps below the clock. -/
def HistOk (m : ConversationManager) : Prop :=
  List.Pairwise entryLE m.conversation_history ∧
  ∀ e ∈ m.conversation_history, e.timestamp < m.clock

theorem HistMono.of_eq {m m2 : ConversationManager}
    (hh : m2.conversation_history = m.conversation_history)
    (hc : m2.clock = m.clock) : HistMono m m2 := by
  refine ⟨hc.ge, [], by simp [hh], by simp, by simp⟩

theorem HistMono.refl (m : ConversationManager) : HistMono m m :=
  HistMono.of_eq (Eq.refl _) (Eq.refl _)

theorem HistMono.trans {m1 m2 m3 : ConversationManager}
    (h12 : HistMono m1 m2) (h23 : HistMono m2 m3) : HistMono m1 m3 := by
  obtain ⟨hc12, t1, ht1, hb1, hp1⟩ := h12
  obtain ⟨hc23, t2, ht2, hb2, hp2⟩ := h23
  refine ⟨hc12.trans hc23, t1 ++ t2, by rw [ht2, ht1, List.append_assoc], ?_, ?_⟩
  · intro e he
    rcases List.mem_append.1 he with h | h
    · exact ⟨(hb1 e h).1, lt_of_lt_of_le (hb1 e h).2 hc23⟩
    · exact ⟨le_trans hc12 (hb2 e h).1, (hb2 e h).2⟩
  · refine List.pairwise_append.2 ⟨hp1, hp2, ?_⟩
    intro a ha b hb
    exact le_trans (le_of_lt (hb1 a ha).2) (hb2 b hb).1

theorem HistOk.mono {m m2 : ConversationManager}
    (hok : HistOk m) (hm : HistMono m m2) : HistOk m2 := by
  obtain ⟨hsorted, hbound⟩ := hok
  obtain ⟨hc, tail, ht, hb, hp⟩ := hm
  constructor
  · rw [ht]
    refine List.pairwise_append.2 ⟨hsorted, hp, ?_⟩
    intro a ha b hb2
    exact le_trans (le_of_lt (hbound a ha)) (hb b hb2).1
  · intro e he
    rw [ht] at he
    rcases List.mem_append.1 he with h | h
    · exact lt_of_lt_of_le (hbound e h) hc
    · exact (hb e h).2

theorem appendHist_mono (m : ConversationManager) (st msg : String) :
    HistMono m (appendHist m st msg) := by
  refine ⟨Nat.le_succ _, [⟨st, msg, m.clock⟩], Eq.refl _, ?_, by simp⟩
  intro e he
  simp only [List.mem_singleton] at he
  subst he
  exact ⟨Nat.le.refl, Nat.lt_succ_self _⟩

theorem appendHist_len (m : ConversationManager) (st msg : String) :
    (appendHist m st msg).conversation_history.length =
      m.conversation_history.length + 1 := by
  simp [appendHist]

theorem transition_fields (m : ConversationManager) :
    (transition_to_next_state m).conversation_history = m.conversation_history ∧
    (transition_to_next_state m).clock = m.clock ∧
    (transition_to_next_state m).salary = m.salary ∧
    (transition_to_next_state m).company = m.company ∧
    (transition_to_next_state m).designation = m.designation ∧
    (transition_to_next_state m).customer_name = m.customer_name ∧
    (transition_to_next_state m).agent_name = m.agent_name := by
  unfold transition_to_next_state
  split <;> simp_all

theorem get_next_message_spec (m : ConversationManager) :
    ((get_next_message m).1 = none ∧ (get_next_message m).2 = m) ∨
    (∃ msg, (get_next_message m).1 = some msg ∧
      (get_next_message m).2 = appendHist m m.current_state.value msg) := by
  unfold get_next_message
  split
  · exact Or.inl ⟨Eq.refl _, Eq.refl _⟩
  · split
    · exact Or.inl ⟨Eq.refl _, Eq.refl _⟩
    · exact Or.inr ⟨_, Eq.refl _, Eq.refl _⟩

theorem get_next_message_mono (m : ConversationManager) :
    HistMono m (get_next_message m).2 ∧
    ((get_next_message m).2.conversation_history.length = m.conversation_history.length ∨
     (get_next_message m).2.conversation_history.length =
       m.conversation_history.length + 1) := by
  rcases get_next_message_spec m with ⟨_, h⟩ | ⟨msg, _, h⟩
  · rw [h]
    exact ⟨HistMono.refl m, Or.inl (Eq.refl _)⟩
  · rw [h]
    exact ⟨appendHist_mono m _ _, Or.inr (appendHist_len m _ _)⟩

theorem advanceResp_mono (m : ConversationManager) :
    HistMono m (advanceResp m).2 ∧
    ((advanceResp m).2.conversation_history.length = m.conversation_history.length ∨
     (advanceResp m).2.conversation_history.length = m.conversation_history.length + 1) := by
  have ht := transition_fields m
  have hg := get_next_message_mono (transition_to_next_state m)
  have hmono := (HistMono.of_eq ht.1 ht.2.1).trans hg.1
  have hlen := hg.2
  rw [ht.1] at hlen
  unfold advanceResp
  split
  next msg m2 heq =>
    rw [heq] at hmono hlen
    exact ⟨hmono, hlen⟩

theorem get_default_response_mono (m : ConversationManager) :
    HistMono m (get_default_response m).2 ∧
    ((get_default_response m).2.conversation_history.length =
        m.conversation_history.length ∨
     (get_default_response m).2.conversation_history.length =
        m.conversation_history.length + 1) := by
  have hg := get_next_message_mono m
  unfold get_default_response
  split
  next msg m2 heq =>
    rw [heq] at hg
    exact hg
  next m2 heq =>
    rw [heq] at hg
    exact hg

/-- Shorthand for the per-turn growth discipline: history extended
timestamp-consistently by zero or one entries. -/
def MonoStep (m m2 : ConversationManager) : Prop :=
  HistMono m m2 ∧
  (m2.conversation_history.length = m.conversation_history.length ∨
   m2.conversation_history.length = m.conversation_history.length + 1)

theorem monoStep_of_eq {m m2 : ConversationManager}
    (hh : m2.conversation_history = m.conversation_history)
    (hc : m2.clock = m.clock) : MonoStep m m2 :=
  ⟨HistMono.of_eq hh hc, Or.inl (by rw [hh])⟩

theorem advanceResp_monoStep (m : ConversationManager) : MonoStep m (advanceResp m).2 :=
  advanceResp_mono m

theorem handle_objection_monoStep (m : ConversationManager) (cat : String) :
    MonoStep m (handle_objection m cat).2 := by
  unfold handle_objection
  split
  · exact monoStep_of_eq (Eq.refl _) (Eq.refl _)
  · exact monoStep_of_eq (Eq.refl _) (Eq.refl _)

theorem process_employment_status_monoStep (m : ConversationManager) (u : String) :
    MonoStep m (process_employment_status m u).2 := by
  unfold process_employment_status
  split
  · exact advanceResp_monoStep m
  · exact monoStep_of_eq (Eq.refl _) (Eq.refl _)

theorem process_salary_collection_monoStep (m : ConversationManager) (u : String) :
    MonoStep m (process_salary_collection m u).2 := by
  unfold process_salary_collection
  split
  next n heq =>
    have h := advanceResp_mono { m with salary := some n }
    exact ⟨(HistMono.of_eq (Eq.refl _) (Eq.refl _)).trans h.1, h.2⟩
  next heq =>
    exact monoStep_of_eq (Eq.refl _) (Eq.refl _)

theorem process_personal_details_monoStep (m : ConversationManager) (u : String) :
    MonoStep m (process_personal_details m u).2 := by
  unfold process_personal_details
  split
  · exact advanceResp_monoStep m
  · exact get_default_response_mono m

theorem process_benefits_response_monoStep (m : ConversationManager) (u : String) :
    MonoStep m (process_benefits_response m u).2 := by
  unfold process_benefits_response
  split
  · exact advanceResp_monoStep m
  · exact monoStep_of_eq (Eq.refl _) (Eq.refl _)

theorem default_state_turn_monoStep (m : ConversationManager) :
    MonoStep m (default_state_turn m).2 := by
  have ht := transition_fields m
  have hg := get_next_message_mono (transition_to_next_state m)
  have hmono := (HistMono.of_eq ht.1 ht.2.1).trans hg.1
  have hlen := hg.2
  rw [ht.1] at hlen
  unfold default_state_turn
  split
  next msg m2 heq =>
    rw [heq] at hmono hlen
    exact ⟨hmono, hlen⟩
  next m2 heq =>
    have hspec := get_next_message_spec (transition_to_next_state m)
    rw [heq] at hspec
    have hm2 : m2 = transition_to_next_state m := by
      rcases hspec with ⟨-, h⟩ | ⟨msg, hmsg, -⟩
      · exact h
      · exact absurd hmsg (by simp)
    subst hm2
    have hd := get_default_response_mono (transition_to_next_state m)
    refine ⟨(HistMono.of_eq ht.1 ht.2.1).trans hd.1, ?_⟩
    rcases hd.2 with h | h <;> rw [h, ht.1]
    · exact Or.inl (Eq.refl _)
    · exact Or.inr (Eq.refl _)

/-- One full turn extends the history by exactly one or two entries, with
timestamps consistent with the advancing clock. -/
theorem process_user_input_mono (m : ConversationManager) (u : String) :
    HistMono m (process_user_input m u).2 ∧
    ((process_user_input m u).2.conversation_history.length =
        m.conversation_history.length + 1 ∨
     (process_user_input m u).2.conversation_history.length =
        m.conversation_history.length + 2) := by
  have happ := appendHist_mono m "user_input" u
  have happlen := appendHist_len m "user_input" u
  have combine : ∀ m2 : ConversationManager,
      MonoStep (appendHist m "user_input" u) m2 →
      HistMono m m2 ∧
      (m2.conversation_history.length = m.conversation_history.length + 1 ∨
       m2.conversation_history.length = m.conversation_history.length + 2) := by
    intro m2 h
    refine ⟨happ.trans h.1, ?_⟩
    rcases h.2 with h2 | h2 <;> rw [h2, happlen]
    · exact Or.inl (Eq.refl _)
    · exact Or.inr (Eq.refl _)
  unfold process_user_input
  dsimp only
  split
  next cat heq =>
    exact combine _ (handle_objection_monoStep _ cat)
  next heq =>
    split
    · exact combine _ (advanceResp_monoStep _)
    · exact combine _ (advanceResp_monoStep _)
    · exact combine _ (advanceResp_monoStep _)
    · exact combine _ (process_employment_status_monoStep _ _)
    · exact combine _ (process_salary_collection_monoStep _ _)
    · exact combine _ (process_personal_details_monoStep _ _)
    · exact combine _ (process_benefits_response_monoStep _ _)
    · exact combine _ (default_state_turn_monoStep _)

/-- Running a list of utterances: history monotone, and the number of new
entries is between one and two per utterance. -/
theorem runUtterances_mono (inputs : List String) (m : ConversationManager) :
    HistMono m (runUtterances m inputs) ∧
    m.conversation_history.length + inputs.length ≤
      (runUtterances m inputs).conversation_history.length ∧
    (runUtterances m inputs).conversation_history.length ≤
      m.conversation_history.length + 2 * inputs.length := by
  induction inputs generalizing m with
  | nil =>
    exact ⟨HistMono.refl m, by simp [runUtterances], by simp [runUtterances]⟩
  | cons i rest ih =>
    have hstep := process_user_input_mono m i
    have hrest := ih (process_user_input m i).2
    have hrun : runUtterances m (i :: rest) =
        runUtterances (process_user_input m i).2 rest := by
      simp [runUtterances, List.foldl_cons]
    rw [hrun]
    refine ⟨hstep.1.trans hrest.1, ?_, ?_⟩
    · rcases hstep.2 with h | h <;>
        (have hx := hrest.2.1; rw [h] at hx; simp only [List.length_cons]; omega)
    · rcases hstep.2 with h | h <;>
        (have hx := hrest.2.2; rw [h] at hx; simp only [List.length_cons]; omega)

/-- A fresh session parked in a given state. -/
def sessionIn (s : CallState) : ConversationManager :=
  { initManager with current_state := s }

/-! ### Claim theorems -/

/-- C3 counterexample: after `startSession("Asha","Rahul","en-IN")` and a
single `processUtterance("hello")`, the history holds 2 entries, not
2·1+1 = 3 — `start_call` records no initial greeting entry. -/
theorem c3_counterexample :
    (runUtterances (start_call initManager "Asha" "Rahul" "en-IN")
        ["hello"]).conversation_history.length = 2 ∧
    ¬ (runUtterances (start_call initManager "Asha" "Rahul" "en-IN")
        ["hello"]).conversation_history.length = 2 * 1 + 1 := by
  constructor <;> decide

/-- C3 (amended): after `startSession` the history is empty — the initial
greeting entry appears only when the host invokes `nextPrompt` — and every
`processUtterance` call appends the customer utterance plus at most one
agent entry; hence after N calls the history holds between N and 2N
entries, with non-decreasing timestamps throughout. -/
theorem c3_history_growth (c a l : String) (inputs : List String) :
    inputs.length ≤
      (runUtterances (start_call initManager c a l) inputs).conversation_history.length ∧
    (runUtterances (start_call initManager c a l) inputs).conversation_history.length ≤
      2 * inputs.length ∧
    List.Pairwise entryLE
      (runUtterances (start_call initManager c a l) inputs).conversation_history := by
  have h := runUtterances_mono inputs (start_call initManager c a l)
  have hstart : (start_call initManager c a l).conversation_history = [] := Eq.refl _
  have hok : HistOk (start_call initManager c a l) := by
    constructor
    · rw [hstart]
      exact List.Pairwise.nil
    · rw [hstart]
      intro e he
      cases he
  refine ⟨?_, ?_, (hok.mono h.1).1⟩
  · have h2 := h.2.1
    rw [hstart] at h2
    simpa using h2
  · have h2 := h.2.2
    rw [hstart] at h2
    simpa using h2

/-- C5 counterexample: the constructor performs none of the validations the
claim requires.  The spec-modelled validation fails on the shipped tables
(IDENTITY_CONFIRMATION is unreachable from GREETING), yet initialization
succeeds and the engine runs (the first turn from GREETING works). -/
theorem c5_counterexample :
    specConfigValid = false ∧
    specReachable .identity_confirmation = false ∧
    initManager.current_state = .greeting ∧
    (process_user_input initManager "hello").1.state = "script_introduction" := by
  refine ⟨by decide, by decide, Eq.refl _, by decide⟩

/-- C5 (amended): initialization performs no validation and always
succeeds.  The shipped static configuration itself fails the spec's
validation — IDENTITY_CONFIRMATION is the one declared state unreachable
from GREETING — while the other two checks (transition targets declared,
catalog keys declared) do hold. -/
theorem c5_no_validation :
    initManager.current_state = .greeting ∧
    initManager.conversation_history = [] ∧
    specConfigValid = false ∧
    allStates.filter (fun s => !specReachable s) = [.identity_confirmation] ∧
    allStates.all
      (fun s => ((state_transitions s).getD []).all (fun t => allStates.contains t)) = true ∧
    (allStates.filter (fun s => (script_messages s).isSome)).all
      (fun s => allStates.contains s) = true := by
  refine ⟨Eq.refl _, Eq.refl _, by decide, by decide, by decide, by decide⟩

/-- C7 counterexample: `nextPrompt` (`get_next_message`) does mutate the
session — on a fresh manager it appends the rendered greeting to history,
so the session is not identical before and after. -/
theorem c7_counterexample :
    (get_next_message initManager).2 ≠ initManager := by
  decide

/-- C7 (amended): `get_next_message` renders the first catalog template of
the current state without consuming input and without changing the current
state or any slot, but it appends the rendered message to the history
(stamped with the current clock) whenever it returns one. -/
theorem c7_next_prompt_frame (m : ConversationManager) :
    (get_next_message m).2.current_state = m.current_state ∧
    (get_next_message m).2.customer_name = m.customer_name ∧
    (get_next_message m).2.agent_name = m.agent_name ∧
    (get_next_message m).2.salary = m.salary ∧
    (get_next_message m).2.company = m.company ∧
    (get_next_message m).2.designation = m.designation ∧
    ((get_next_message m).1 = none ∧
       (get_next_message m).2.conversation_history = m.conversation_history ∨
     ∃ msg, (get_next_message m).1 = some msg ∧
       (get_next_message m).2.conversation_history =
         m.conversation_history ++ [⟨m.current_state.value, msg, m.clock⟩]) := by
  rcases get_next_message_spec m with ⟨h1, h2⟩ | ⟨msg, h1, h2⟩ <;> rw [h2]
  · exact ⟨Eq.refl _, Eq.refl _, Eq.refl _, Eq.refl _, Eq.refl _, Eq.refl _,
      Or.inl ⟨h1, Eq.refl _⟩⟩
  · exact ⟨Eq.refl _, Eq.refl _, Eq.refl _, Eq.refl _, Eq.refl _, Eq.refl _,
      Or.inr ⟨msg, h1, Eq.refl _⟩⟩

/-- C10: the `state` string returned by `process_user_input` can name none
of the declared states and differ from the session's actual current state:
`salary_clarification` (digit-free utterance in SALARY_COLLECTION),
`clarification` (no-keyword utterance in EMPLOYMENT_STATUS),
`benefits_clarification` (non-positive utterance in BENEFITS_EXPLANATION),
and `continuation` (a turn in ENDED, which has no catalog entry) — while
the session's `current_state` remains a declared enum state throughout. -/
theorem c10_undeclared_state_strings :
    ((process_user_input (sessionIn .salary_collection) "hello").1.state =
        "salary_clarification" ∧
     (process_user_input (sessionIn .salary_collection) "hello").2.current_state =
        .salary_collection ∧
     allStates.all (fun s => s.value != "salary_clarification") = true) ∧
    ((process_user_input (sessionIn .employment_status) "ok").1.state = "clarification" ∧
     (process_user_input (sessionIn .employment_status) "ok").2.current_state =
        .employment_status ∧
     allStates.all (fun s => s.value != "clarification") = true) ∧
    ((process_user_input (sessionIn .benefits_explanation) "hmm").1.state =
        "benefits_clarification" ∧
     (process_user_input (sessionIn .benefits_explanation) "hmm").2.current_state =
        .benefits_explanation ∧
     allStates.all (fun s => s.value != "benefits_clarification") = true) ∧
    ((process_user_input (sessionIn .ended) "ok").1.state = "continuation" ∧
     script_messages (sessionIn .ended).current_state = none ∧
     (process_user_input (sessionIn .ended) "ok").2.current_state = .ended ∧
     allStates.all (fun s => s.value != "continuation") = true) ∧
    (∀ s : CallState, allStates.contains s = true) := by
  refine ⟨⟨by decide, by decide, by decide⟩, ⟨by decide, by decide, by decide⟩,
    ⟨by decide, by decide, by decide⟩, ⟨by decide, by decide, by decide, by decide⟩, ?_⟩
  intro s
  cases s <;> decide

/-- C1 counterexample: a turn in state ENDED is not a no-op.  On the
utterance "xyz" (no objection trigger) the history changes — the utterance
is appended — and a (non-scripted) response is produced. -/
theorem c1_counterexample :
    (process_user_input (sessionIn .ended) "xyz").2.conversation_history ≠
      (sessionIn .ended).conversation_history ∧
    (process_user_input (sessionIn .ended) "xyz").1.message ≠ none := by
  constructor <;> decide

/-- C1 (amended): in state ENDED with an utterance matching no objection
trigger, `process_user_input` keeps the state ENDED and the slots
unchanged, but it does append the utterance to history and returns the
default continuation response (an objection trigger would even move the
session out of ENDED). -/
theorem c1_ended_turn (m : ConversationManager) (input : String)
    (h1 : m.current_state = .ended)
    (h2 : detect_objection (normalize_input input) = none) :
    (process_user_input m input).2.current_state = .ended ∧
    (process_user_input m input).2.salary = m.salary ∧
    (process_user_input m input).2.company = m.company ∧
    (process_user_input m input).2.designation = m.designation ∧
    (process_user_input m input).2.conversation_history =
      m.conversation_history ++ [⟨"user_input", input, m.clock⟩] ∧
    (process_user_input m input).1 =
      ⟨some "Thank you for your response. Let me continue with the process.",
       "continuation"⟩ := by
  obtain ⟨cs, cn, an, lg, sal, co, de, hist, clk⟩ := m
  simp only at h1
  subst h1
  simp [process_user_input, h2, appendHist, default_state_turn, transition_to_next_state,
    state_transitions, get_next_message, script_messages, get_default_response]

/-- C1 witness: the amended theorem applied at a concrete ENDED session
and the utterance "xyz". -/
theorem c1_witness :
    (process_user_input (sessionIn .ended) "xyz").2.current_state = .ended ∧
    (process_user_input (sessionIn .ended) "xyz").2.salary = (sessionIn .ended).salary ∧
    (process_user_input (sessionIn .ended) "xyz").2.company = (sessionIn .ended).company ∧
    (process_user_input (sessionIn .ended) "xyz").2.designation =
      (sessionIn .ended).designation ∧
    (process_user_input (sessionIn .ended) "xyz").2.conversation_history =
      (sessionIn .ended).conversation_history ++
        [⟨"user_input", "xyz", (sessionIn .ended).clock⟩] ∧
    (process_user_input (sessionIn .ended) "xyz").1 =
      ⟨some "Thank you for your response. Let me continue with the process.",
       "continuation"⟩ :=
  c1_ended_turn (sessionIn .ended) "xyz" (by decide) (by decide)

/-- C2 counterexample: the canned objection response is not appended to
history.  In SALARY_COLLECTION on "not interested", the history grows by
the user entry alone, and no entry carries the canned response. -/
theorem c2_counterexample :
    (process_user_input (sessionIn .salary_collection) "not interested").1.message =
      some "An Overdraft Facility is a great financial backup. There is no EMI, and you only pay interest on the amount used." ∧
    (process_user_input
        (sessionIn .salary_collection) "not interested").2.conversation_history =
      [⟨"user_input", "not interested", 0⟩] ∧
    ((process_user_input
        (sessionIn .salary_collection) "not interested").2.conversation_history.all
      (fun e => e.message !=
        "An Overdraft Facility is a great financial backup. There is no EMI, and you only pay interest on the amount used.")) = true := by
  refine ⟨by decide, by decide, by decide⟩

/-- C2 (amended): an utterance containing a trigger phrase of some
objection category makes `process_user_input` return the first matching
category's canned response with state `objection_handling`, set the
session state to OBJECTION_HANDLING, and perform no slot extraction — but
only the utterance is appended to history, not the canned response. -/
theorem c2_objection_preempts (m : ConversationManager) (input : String)
    (h : ∃ p ∈ objection_keywords, ∃ kw ∈ p.2,
      strContains (normalize_input input) kw = true) :
    ∃ cat resp,
      detect_objection (normalize_input input) = some cat ∧
      lookupResponse cat = some resp ∧
      (process_user_input m input).1 = ⟨some resp, "objection_handling"⟩ ∧
      (process_user_input m input).2.current_state = .objection_handling ∧
      (process_user_input m input).2.salary = m.salary ∧
      (process_user_input m input).2.company = m.company ∧
      (process_user_input m input).2.designation = m.designation ∧
      (process_user_input m input).2.conversation_history =
        m.conversation_history ++ [⟨"user_input", input, m.clock⟩] := by
  have hsome : (objection_keywords.find?
      (fun p => p.2.any (fun kw => strContains (normalize_input input) kw))).isSome := by
    rw [List.find?_isSome]
    obtain ⟨p, hp, kw, hkw, hc⟩ := h
    refine ⟨p, hp, ?_⟩
    rw [List.any_eq_true]
    exact ⟨kw, hkw, hc⟩
  obtain ⟨p, hfind⟩ := Option.isSome_iff_exists.1 hsome
  have hdet : detect_objection (normalize_input input) = some p.1 := by
    unfold detect_objection
    rw [hfind]
    rfl
  have hmem : p ∈ objection_keywords := List.mem_of_find?_eq_some hfind
  have hall : ∀ q ∈ objection_keywords, (lookupResponse q.1).isSome := by decide
  obtain ⟨resp, hresp⟩ := Option.isSome_iff_exists.1 (hall p hmem)
  refine ⟨p.1, resp, hdet, hresp, ?_⟩
  unfold process_user_input
  dsimp only
  rw [hdet]
  simp [handle_objection, hresp, appendHist]

/-- C2 witness: in SALARY_COLLECTION, "55000 but not interested" contains
both digits and the trigger "not interested"; the turn yields the no_need
canned response, state OBJECTION_HANDLING, and no salary slot. -/
theorem c2_witness :
    ∃ cat resp,
      detect_objection (normalize_input "55000 but not interested") = some cat ∧
      lookupResponse cat = some resp ∧
      (process_user_input (sessionIn .salary_collection) "55000 but not interested").1 =
        ⟨some resp, "objection_handling"⟩ ∧
      (process_user_input
          (sessionIn .salary_collection) "55000 but not interested").2.current_state =
        .objection_handling ∧
      (process_user_input
          (sessionIn .salary_collection) "55000 but not interested").2.salary =
        (sessionIn .salary_collection).salary ∧
      (process_user_input
          (sessionIn .salary_collection) "55000 but not interested").2.company =
        (sessionIn .salary_collection).company ∧
      (process_user_input
          (sessionIn .salary_collection) "55000 but not interested").2.designation =
        (sessionIn .salary_collection).designation ∧
      (process_user_input
          (sessionIn .salary_collection) "55000 but not interested").2.conversation_history =
        (sessionIn .salary_collection).conversation_history ++
          [⟨"user_input", "55000 but not interested", (sessionIn .salary_collection).clock⟩] :=
  c2_objection_preempts (sessionIn .salary_collection) "55000 but not interested" (by decide)

/-- The first BENEFITS_EXPLANATION catalog template. -/
def benefitsOpeningTemplate : Template :=
  ((script_messages CallState.benefits_explanation).getD []).headD []

/-- The `salary` keyword argument resolves to the stored slot value when
present, else the default "100000". -/
theorem formatArgs_salary (m : ConversationManager) :
    formatArgs m "salary" =
      some (match m.salary with
            | some n => toString n
            | none => "100000") := by
  unfold formatArgs
  rw [if_neg (by decide), if_neg (by decide), if_pos (Eq.refl _)]

/-- Rendering reads only the name and slot fields of the session. -/
theorem format_message_congr (tpl : Template) {m m2 : ConversationManager}
    (hcn : m2.customer_name = m.customer_name)
    (han : m2.agent_name = m.agent_name)
    (hs : m2.salary = m.salary)
    (hco : m2.company = m.company)
    (hde : m2.designation = m.designation) :
    format_message tpl m2 = format_message tpl m := by
  have hfun : renderChunk m2 = renderChunk m := by
    funext c
    cases c with
    | lit s => rfl
    | ph n =>
      show formatArgs m2 n = formatArgs m n
      unfold formatArgs
      rw [hcn, han, hs, hco, hde]
  have hparts : ∀ t : Template, renderParts m2 t = renderParts m t := by
    intro t
    induction t with
    | nil => rfl
    | cons c t ih => simp [renderParts, hfun, ih]
  unfold format_message
  rw [hparts]

/-- The rendered BENEFITS_EXPLANATION opening prompt contains the stored
salary figure verbatim. -/
theorem benefits_render_55000 (m : ConversationManager) (h : m.salary = some 55000) :
    strContains (format_message benefitsOpeningTemplate m) "55000" = true := by
  simp only [benefitsOpeningTemplate, script_messages, Option.getD_some, List.headD_cons,
    format_message, renderParts, renderChunk, formatArgs_salary, h]
  decide

/-- C4 counterexample: a no-objection turn in OBJECTION_HANDLING does not
return the declared fallback message; it transitions to
BENEFITS_EXPLANATION and returns that state's rendered opening template. -/
theorem c4_counterexample :
    (process_user_input (sessionIn .objection_handling) "ok").1.state =
      "benefits_explanation" ∧
    (process_user_input (sessionIn .objection_handling) "ok").1.message ≠
      some "Thank you for your response. Let me continue with the process." ∧
    (process_user_input (sessionIn .objection_handling) "ok").1.message ≠ none := by
  refine ⟨by decide, by decide, by decide⟩

/-- C4 (amended): a turn dispatched in OBJECTION_HANDLING whose utterance
matches no objection category transitions to
`TransitionTable[OBJECTION_HANDLING][0] = BENEFITS_EXPLANATION` — which
does have a catalog entry — and returns its rendered opening template, so
the declared fallback message is not used. -/
theorem c4_objection_state_turn (m : ConversationManager) (input : String)
    (h1 : m.current_state = .objection_handling)
    (h2 : detect_objection (normalize_input input) = none) :
    (process_user_input m input).2.current_state = .benefits_explanation ∧
    (process_user_input m input).1.state = "benefits_explanation" ∧
    (process_user_input m input).1.message =
      some (format_message benefitsOpeningTemplate m) := by
  obtain ⟨cs, cn, an, lg, sal, co, de, hist, clk⟩ := m
  simp only at h1
  subst h1
  simp [process_user_input, h2, appendHist, default_state_turn, transition_to_next_state,
    state_transitions, get_next_message, script_messages, benefitsOpeningTemplate,
    CallState.value]
  exact format_message_congr _ rfl rfl rfl rfl rfl

/-- C4 witness: the amended theorem at a concrete OBJECTION_HANDLING
session and the utterance "ok". -/
theorem c4_witness :
    (process_user_input (sessionIn .objection_handling) "ok").2.current_state =
      .benefits_explanation ∧
    (process_user_input (sessionIn .objection_handling) "ok").1.state =
      "benefits_explanation" ∧
    (process_user_input (sessionIn .objection_handling) "ok").1.message =
      some (format_message benefitsOpeningTemplate (sessionIn .objection_handling)) :=
  c4_objection_state_turn (sessionIn .objection_handling) "ok" (by decide) (by decide)

/-- C6: in SALARY_COLLECTION, "my salary is 55,000" stores salary = 55000,
advances to BENEFITS_EXPLANATION, and the rendered prompt returned for the
turn contains "55000" verbatim. -/
theorem c6_salary_roundtrip (m : ConversationManager)
    (h : m.current_state = .salary_collection) :
    (process_user_input m "my salary is 55,000").2.salary = some 55000 ∧
    (process_user_input m "my salary is 55,000").2.current_state =
      .benefits_explanation ∧
    (process_user_input m "my salary is 55,000").1.state = "benefits_explanation" ∧
    ∃ msg, (process_user_input m "my salary is 55,000").1.message = some msg ∧
      strContains msg "55000" = true := by
  obtain ⟨cs, cn, an, lg, sal, co, de, hist, clk⟩ := m
  simp only at h
  subst h
  have hdet : detect_objection (normalize_input "my salary is 55,000") = none := by decide
  have hext : extract_salary "my salary is 55,000" = some 55000 := by decide
  refine ⟨?_, ?_, ?_, ?_⟩
  · simp [process_user_input, hdet, appendHist, process_salary_collection, hext,
      advanceResp, transition_to_next_state, state_transitions, get_next_message,
      script_messages]
  · simp [process_user_input, hdet, appendHist, process_salary_collection, hext,
      advanceResp, transition_to_next_state, state_transitions, get_next_message,
      script_messages]
  · simp [process_user_input, hdet, appendHist, process_salary_collection, hext,
      advanceResp, transition_to_next_state, state_transitions, get_next_message,
      script_messages, CallState.value]
  · simp only [process_user_input, hdet, appendHist, process_salary_collection, hext,
      advanceResp, transition_to_next_state, state_transitions, get_next_message,
      script_messages, format_message, renderParts, renderChunk, formatArgs_salary]
    exact ⟨_, rfl, by decide⟩

/-- C6 witness: the round trip at a concrete SALARY_COLLECTION session. -/
theorem c6_witness :
    (process_user_input (sessionIn .salary_collection) "my salary is 55,000").2.salary =
      some 55000 ∧
    (process_user_input
        (sessionIn .salary_collection) "my salary is 55,000").2.current_state =
      .benefits_explanation ∧
    (process_user_input (sessionIn .salary_collection) "my salary is 55,000").1.state =
      "benefits_explanation" ∧
    ∃ msg,
      (process_user_input (sessionIn .salary_collection) "my salary is 55,000").1.message =
        some msg ∧
      strContains msg "55000" = true :=
  c6_salary_roundtrip (sessionIn .salary_collection) (by decide)

/-- One "hello" turn in SALARY_COLLECTION: clarification response, state
held. -/
theorem salary_hello_step (m : ConversationManager)
    (h : m.current_state = .salary_collection) :
    (process_user_input m "hello").1 =
      ⟨some salaryClarificationText, "salary_clarification"⟩ ∧
    (process_user_input m "hello").2.current_state = .salary_collection := by
  obtain ⟨cs, cn, an, lg, sal, co, de, hist, clk⟩ := m
  simp only at h
  subst h
  have hdet : detect_objection (normalize_input "hello") = none := by decide
  have hext : extract_salary "hello" = none := by decide
  simp [process_user_input, hdet, appendHist, process_salary_collection, hext]

/-- Iterate "hello" turns. -/
def repHello (m : ConversationManager) : Nat → ConversationManager
  | 0 => m
  | k + 1 => (process_user_input (repHello m k) "hello") |>.2

/-- C9: however many times "hello" has already been sent in
SALARY_COLLECTION, the state is still SALARY_COLLECTION and the next
"hello" turn returns the identical clarification text. -/
theorem c9_hello_idempotent (m : ConversationManager)
    (h : m.current_state = .salary_collection) (k : Nat) :
    (repHello m k).current_state = .salary_collection ∧
    (process_user_input (repHello m k) "hello").1 =
      ⟨some salaryClarificationText, "salary_clarification"⟩ := by
  induction k with
  | zero => exact ⟨h, (salary_hello_step m h).1⟩
  | succ k ih =>
    have hstate : (repHello m (k + 1)).current_state = .salary_collection :=
      (salary_hello_step _ ih.1).2
    exact ⟨hstate, (salary_hello_step _ hstate).1⟩

/-- C9 witness: the third "hello" turn of a concrete SALARY_COLLECTION
session behaves identically. -/
theorem c9_witness :
    (repHello (sessionIn .salary_collection) 2).current_state = .salary_collection ∧
    (process_user_input (repHello (sessionIn .salary_collection) 2) "hello").1 =
      ⟨some salaryClarificationText, "salary_clarification"⟩ :=
  c9_hello_idempotent (sessionIn .salary_collection) (by decide) 2

/-- The placeholder names `get_next_message` passes to `format`. -/
def knownPlaceholders : List String :=
  ["customer_name", "agent_name", "salary", "company", "designation"]

/-- A chunk whose rendering cannot fail: literal text or a declared
placeholder. -/
def chunkKnown : Chunk → Bool
  | .lit _ => true
  | .ph n => decide (n ∈ knownPlaceholders)

/-- Modelled from the spec (§4.4, §7): the renderer's intended result —
full substitution when every placeholder is declared, else the raw,
unformatted template. -/
def specRender (tpl : Template) (m : ConversationManager) : String :=
  if tpl.all chunkKnown then String.join (tpl.filterMap (renderChunk m))
  else rawTemplate tpl

/-- A placeholder resolves exactly when its name is declared. -/
theorem formatArgs_isSome (m : ConversationManager) (n : String) :
    (formatArgs m n).isSome = true ↔ n ∈ knownPlaceholders := by
  unfold formatArgs knownPlaceholders
  split_ifs with h1 h2 h3 h4 h5 <;> simp_all

theorem renderChunk_isSome (m : ConversationManager) (c : Chunk) :
    (renderChunk m c).isSome = chunkKnown c := by
  cases c with
  | lit s => rfl
  | ph n =>
    show (formatArgs m n).isSome = decide (n ∈ knownPlaceholders)
    rw [Bool.eq_iff_iff]
    simp [formatArgs_isSome]

theorem renderParts_eq (m : ConversationManager) (tpl : Template) :
    (tpl.all chunkKnown = true ∧
      renderParts m tpl = some (tpl.filterMap (renderChunk m))) ∨
    (tpl.all chunkKnown = false ∧ renderParts m tpl = none) := by
  induction tpl with
  | nil => exact Or.inl ⟨Eq.refl _, Eq.refl _⟩
  | cons c t ih =>
    cases hc : renderChunk m c with
    | none =>
      have hck : chunkKnown c = false := by
        rw [← renderChunk_isSome m c, hc]
        rfl
      refine Or.inr ⟨?_, ?_⟩
      · simp [List.all_cons, hck]
      · simp [renderParts, hc]
    | some s =>
      have hck : chunkKnown c = true := by
        rw [← renderChunk_isSome m c, hc]
        rfl
      rcases ih with ⟨h1, h2⟩ | ⟨h1, h2⟩
      · refine Or.inl ⟨?_, ?_⟩
        · simp [List.all_cons, hck, h1]
        · simp [renderParts, hc, h2, List.filterMap_cons]
      · refine Or.inr ⟨?_, ?_⟩
        · simp [List.all_cons, h1]
        · simp [renderParts, hc, h2]

/-- C8: rendering never fails the turn: each of the five declared
placeholders resolves to the stored slot value when present and to its
declared default otherwise, and a template with an undeclared placeholder
renders as the raw, unformatted template text instead of erroring —
`format_message` coincides with the spec's renderer on every template and
session. -/
theorem c8_render_total (tpl : Template) (m : ConversationManager) :
    formatArgs m "customer_name" = some m.customer_name ∧
    formatArgs m "agent_name" = some m.agent_name ∧
    formatArgs m "salary" =
      some (match m.salary with
            | some n => toString n
            | none => "100000") ∧
    formatArgs m "company" = some (m.company.getD "") ∧
    formatArgs m "designation" = some (m.designation.getD "") ∧
    format_message tpl m = specRender tpl m := by
  refine ⟨?_, ?_, formatArgs_salary m, ?_, ?_, ?_⟩
  · unfold formatArgs
    rw [if_pos (Eq.refl _)]
  · unfold formatArgs
    rw [if_neg (by decide), if_pos (Eq.refl _)]
  · unfold formatArgs
    rw [if_neg (by decide), if_neg (by decide), if_neg (by decide), if_pos (Eq.refl _)]
  · unfold formatArgs
    rw [if_neg (by decide), if_neg (by decide), if_neg (by decide), if_neg (by decide),
      if_pos (Eq.refl _)]
  · unfold format_message specRender
    rcases renderParts_eq m tpl with ⟨h1, h2⟩ | ⟨h1, h2⟩
    · rw [h2, if_pos h1]
    · rw [h2, if_neg (by rw [h1]; exact Bool.false_ne_true)]

end RupeeQ
